import Mathlib

/-!
Shallow embedding of `drake/multibody/multibody_tree/joints/revolute_joint.h`
(class `RevoluteJoint<T>`), together with the minimal surrounding data model
(contexts, force accumulators, mobilizers) that its methods touch.
Doubles are modelled as exact reals; `Vector3<double>` as a record of reals.
-/

noncomputable section

/-- Machine epsilon for IEEE double precision, `std::numeric_limits<double>::epsilon()`. -/
def kEpsilon : ℝ := 1 / 2 ^ 52

/-- Model of `Vector3<double>` (an Eigen 3-vector of doubles). -/
structure Vec3 where
  x : ℝ
  y : ℝ
  z : ℝ

/-- Squared Euclidean norm of a 3-vector. -/
def Vec3.normSq (v : Vec3) : ℝ := v.x ^ 2 + v.y ^ 2 + v.z ^ 2

/-- Euclidean norm (`Eigen norm()`), modelled with the exact real square root. -/
noncomputable def Vec3.norm (v : Vec3) : ℝ := Real.sqrt v.normSq

/-- Eigen `DenseBase::isZero(prec)`: every coefficient has absolute value at most
`prec` (a componentwise test, not a test on the vector's magnitude). -/
def Vec3.isZero (v : Vec3) (prec : ℝ) : Prop :=
  |v.x| ≤ prec ∧ |v.y| ≤ prec ∧ |v.z| ≤ prec

/-- Eigen `normalized()`: the vector divided by its Euclidean norm. -/
noncomputable def Vec3.normalized (v : Vec3) : Vec3 :=
  ⟨v.x / v.norm, v.y / v.norm, v.z / v.norm⟩

/-- Scalar multiple of a 3-vector. -/
def Vec3.smul (c : ℝ) (v : Vec3) : Vec3 := ⟨c * v.x, c * v.y, c * v.z⟩

/-- The two scalar types `T` the template is instantiated for: `double` and
`AutoDiffXd`. -/
inductive ScalarTag where
  | double
  | autodiffXd
deriving DecidableEq

/-- The carrier of scalar type `T`: a plain real for `double`, a value paired
with a derivative for the dual-number type `AutoDiffXd`. -/
abbrev Scalar : ScalarTag → Type
  | .double => ℝ
  | .autodiffXd => ℝ × ℝ

/-- Zero of scalar type `T`. -/
def Scalar.zero : (τ : ScalarTag) → Scalar τ
  | .double => (0 : ℝ)
  | .autodiffXd => ((0 : ℝ), (0 : ℝ))

/-- Addition at scalar type `T` (`operator+`; for `AutoDiffXd` both the value
and the derivative add). -/
def Scalar.add : (τ : ScalarTag) → Scalar τ → Scalar τ → Scalar τ
  | .double, a, b => (a + b : ℝ)
  | .autodiffXd, a, b => (a.1 + b.1, a.2 + b.2)

theorem Scalar.zero_add (τ : ScalarTag) (a : Scalar τ) :
    Scalar.add τ (Scalar.zero τ) a = a := by
  cases τ <;> simp [Scalar.add, Scalar.zero]

open scoped Classical

/-- The error kinds of the spec's §7; a `DRAKE_DEMAND` failure that matches no
named spec error is `demandFailed`. A C++ abort is modelled as an `Except`
error result, which in particular returns no mutated container. -/
inductive JointError where
  | degenerateConstruction
  | unboundAccess
  | sizeMismatch
  | frameNotFound
  | demandFailed
deriving DecidableEq

/-- Modelled from the spec: the State Container (`systems::Context<T>` backed by
`MultibodyTreeContext`, not among the sources): a flat, indexable store of
generalized positions `q` and generalized velocities `v` for the whole
mechanism. -/
structure Context (τ : ScalarTag) where
  q : List (Scalar τ)
  v : List (Scalar τ)

/-- Modelled from the spec: `RevoluteMobilizer<T>` (`revolute_mobilizer.h` is not
among the sources): constructed from the inboard frame, the outboard frame and
the axis; reads and writes the State Container at its pre-assigned offsets
(`position_start`, `velocity_start` are 0 until the finalize driver assigns
them). Frames are modelled by their names, after the spec's name-addressable
frame lookup. -/
structure RevoluteMobilizer where
  inboard_frame : String
  outboard_frame : String
  axis : Vec3
  position_start : ℕ
  velocity_start : ℕ

/-- Modelled from the spec: `RevoluteMobilizer<T>::get_angle`: pure read of the
State Container at this mobilizer's position offset. -/
def RevoluteMobilizer.get_angle {τ : ScalarTag} (m : RevoluteMobilizer)
    (context : Context τ) : Scalar τ :=
  context.q.getD m.position_start (Scalar.zero τ)

/-- Modelled from the spec: `RevoluteMobilizer<T>::set_angle`: pure write of the
State Container at this mobilizer's position offset (explicit state passing:
the updated container is returned). -/
def RevoluteMobilizer.set_angle {τ : ScalarTag} (m : RevoluteMobilizer)
    (context : Context τ) (angle : Scalar τ) : Context τ :=
  { context with q := context.q.set m.position_start angle }

/-- Modelled from the spec: `RevoluteMobilizer<T>::get_angular_rate`: pure read
of the State Container at this mobilizer's velocity offset. -/
def RevoluteMobilizer.get_angular_rate {τ : ScalarTag} (m : RevoluteMobilizer)
    (context : Context τ) : Scalar τ :=
  context.v.getD m.velocity_start (Scalar.zero τ)

/-- Modelled from the spec: `RevoluteMobilizer<T>::set_angular_rate`: pure write
of the State Container at this mobilizer's velocity offset. -/
def RevoluteMobilizer.set_angular_rate {τ : ScalarTag} (m : RevoluteMobilizer)
    (context : Context τ) (rate : Scalar τ) : Context τ :=
  { context with v := context.v.set m.velocity_start rate }

/-- Modelled from the spec: the implementation a Joint owns once the finalize
driver has bound it (`Joint<T>::JointImplementation` of `joint.h`, not among
the sources): the set of mobilizers instantiated from the joint's blueprint. -/
structure JointImplementation where
  mobilizers_ : List RevoluteMobilizer

/-- Modelled from the spec: `MultibodyForces<T>` (`multibody_forces.h` is not
among the sources): the Force Accumulator, a flat store of generalized forces
aligned 1:1 with the State Container's velocity indexing. -/
structure MultibodyForces (τ : ScalarTag) where
  generalized_forces : List (Scalar τ)

/-- Modelled from the spec: `MultibodyForces<T>::CheckHasRightSizeForModel`:
the accumulator must be sized exactly for the owning mechanism's total number
of generalized velocities. -/
def MultibodyForces.CheckHasRightSizeForModel {τ : ScalarTag}
    (forces : MultibodyForces τ) (tree_num_velocities : ℕ) : Prop :=
  forces.generalized_forces.length = tree_num_velocities

/-- Model of `RevoluteJoint<T>`: name and frames from the `Joint<T>` base
(frames modelled by name), the owning tree's total velocity count standing in
for the `get_parent_tree()` back reference, the stored axis `axis_`
(a `Vector3<double>`, hence real-valued independently of `τ`), and the
implementation installed at finalize (`none` while the joint is Unbound). -/
structure RevoluteJoint (τ : ScalarTag) where
  name : String
  frame_on_parent : String
  frame_on_child : String
  parent_tree_num_velocities : ℕ
  axis_ : Vec3
  implementation_ : Option JointImplementation

/-- The `RevoluteJoint` constructor: demands `!axis.isZero(kEpsilon)` (a
`DRAKE_DEMAND` abort, modelled as a `degenerateConstruction` error) and stores
`axis.normalized()`. The joint starts Unbound (`implementation_ = none`). -/
def RevoluteJoint.construct (τ : ScalarTag) (name fp fc : String)
    (tree_num_velocities : ℕ) (axis : Vec3) : Except JointError (RevoluteJoint τ) :=
  if axis.isZero kEpsilon then .error .degenerateConstruction
  else .ok ⟨name, fp, fc, tree_num_velocities, axis.normalized, none⟩

/-- `RevoluteJoint::get_revolute_axis`: returns the stored `axis_`. -/
def RevoluteJoint.get_revolute_axis {τ : ScalarTag} (j : RevoluteJoint τ) : Vec3 :=
  j.axis_

/-- `RevoluteJoint::do_get_num_dofs`: a revolute joint has one degree of
freedom. -/
def RevoluteJoint.do_get_num_dofs {τ : ScalarTag} (_j : RevoluteJoint τ) : ℕ := 1

/-- `RevoluteJoint::get_mobilizer`: demands that the implementation has exactly
one mobilizer and returns it. On an Unbound joint `get_implementation()` is an
unbound access (modelled from the spec: `joint.h` is not among the sources). -/
def RevoluteJoint.get_mobilizer {τ : ScalarTag} (j : RevoluteJoint τ) :
    Except JointError RevoluteMobilizer :=
  match j.implementation_ with
  | none => .error .unboundAccess
  | some impl =>
    match impl.mobilizers_ with
    | [m] => .ok m
    | _ => .error .demandFailed

/-- `RevoluteJoint::get_angle`: reads the angle through the bound mobilizer. -/
def RevoluteJoint.get_angle {τ : ScalarTag} (j : RevoluteJoint τ)
    (context : Context τ) : Except JointError (Scalar τ) :=
  (j.get_mobilizer).map fun m => m.get_angle context

/-- `RevoluteJoint::set_angle`: writes the angle through the bound mobilizer
(the C++ method mutates the context in place and returns `*this`; the model
returns the updated context). -/
def RevoluteJoint.set_angle {τ : ScalarTag} (j : RevoluteJoint τ)
    (context : Context τ) (angle : Scalar τ) : Except JointError (Context τ) :=
  (j.get_mobilizer).map fun m => m.set_angle context angle

/-- `RevoluteJoint::get_angular_rate`: reads the rate through the bound
mobilizer. -/
def RevoluteJoint.get_angular_rate {τ : ScalarTag} (j : RevoluteJoint τ)
    (context : Context τ) : Except JointError (Scalar τ) :=
  (j.get_mobilizer).map fun m => m.get_angular_rate context

/-- `RevoluteJoint::set_angular_rate`: writes the rate through the bound
mobilizer. -/
def RevoluteJoint.set_angular_rate {τ : ScalarTag} (j : RevoluteJoint τ)
    (context : Context τ) (rate : Scalar τ) : Except JointError (Context τ) :=
  (j.get_mobilizer).map fun m => m.set_angular_rate context rate

/-- `RevoluteJoint::DoAddInOneForce`: demands `joint_dof == 0`, then adds
`joint_tau` into the accumulator entry the bound mobilizer maps dof
`joint_dof` to (`get_mutable_generalized_forces_from_array` segments the
accumulator at the mobilizer's velocity offset; modelled from the spec since
`revolute_mobilizer.h` is not among the sources). -/
def RevoluteJoint.DoAddInOneForce {τ : ScalarTag} (j : RevoluteJoint τ)
    (_context : Context τ) (joint_dof : ℕ) (joint_tau : Scalar τ)
    (forces : MultibodyForces τ) : Except JointError (MultibodyForces τ) :=
  if joint_dof = 0 then
    (j.get_mobilizer).map fun m =>
      let i := m.velocity_start + joint_dof
      ⟨forces.generalized_forces.set i
        (Scalar.add τ (forces.generalized_forces.getD i (Scalar.zero τ)) joint_tau)⟩
  else .error .demandFailed

/-- Modelled from the spec: `Joint<T>::AddInOneForce`, the public NVI of
`joint.h` (not among the sources), which validates the dof index against the
joint's dof count before dispatching to `DoAddInOneForce`. -/
def RevoluteJoint.AddInOneForce {τ : ScalarTag} (j : RevoluteJoint τ)
    (context : Context τ) (joint_dof : ℕ) (joint_tau : Scalar τ)
    (forces : MultibodyForces τ) : Except JointError (MultibodyForces τ) :=
  if joint_dof < j.do_get_num_dofs then j.DoAddInOneForce context joint_dof joint_tau forces
  else .error .demandFailed

/-- `RevoluteJoint::AddInTorque`: demands the accumulator has the right size for
the owning tree (`sizeMismatch` on failure), then forwards the torque as the
force on dof 0. -/
def RevoluteJoint.AddInTorque {τ : ScalarTag} (j : RevoluteJoint τ)
    (context : Context τ) (torque : Scalar τ) (forces : MultibodyForces τ) :
    Except JointError (MultibodyForces τ) :=
  if forces.CheckHasRightSizeForModel j.parent_tree_num_velocities then
    j.AddInOneForce context 0 torque forces
  else .error .sizeMismatch

/-- Modelled from the spec: `Joint<T>::BluePrint` (`joint.h` is not among the
sources): an ordered list of mobilizer specifications consumed at tree
finalization. -/
structure BluePrint where
  mobilizers_ : List RevoluteMobilizer

/-- `RevoluteJoint::MakeImplementationBlueprint`: a blueprint holding a single
`RevoluteMobilizer` built from the joint's parent frame, child frame and
stored axis (its offsets are assigned only later, at finalize; 0 here stands
for unassigned). -/
def RevoluteJoint.MakeImplementationBlueprint {τ : ScalarTag}
    (j : RevoluteJoint τ) : BluePrint :=
  ⟨[⟨j.frame_on_parent, j.frame_on_child, j.axis_, 0, 0⟩]⟩

/-- Modelled from the spec: the finalize driver's internal binding setter that
flips a Joint to Bound by installing its implementation. -/
def RevoluteJoint.set_implementation {τ : ScalarTag} (j : RevoluteJoint τ)
    (impl : JointImplementation) : RevoluteJoint τ :=
  { j with implementation_ := some impl }

/-- Modelled from the spec: `RevoluteJoint::TemplatedDoCloneToScalar` (defined
in `revolute_joint.cc`, which is not among the sources; only its declaration
is): produces an equivalent joint over the target scalar type, remapping both
frames by name into the already-cloned tree (modelled by the lists of its
frame names), failing with a missing-frame error when a name is absent; the
clone keeps the name and the stored axis and starts Unbound. -/
def RevoluteJoint.TemplatedDoCloneToScalar {τ : ScalarTag} (j : RevoluteJoint τ)
    (τ₂ : ScalarTag) (tree_clone_frames : List String) :
    Except JointError (RevoluteJoint τ₂) :=
  if j.frame_on_parent ∈ tree_clone_frames then
    if j.frame_on_child ∈ tree_clone_frames then
      .ok ⟨j.name, j.frame_on_parent, j.frame_on_child,
           j.parent_tree_num_velocities, j.axis_, none⟩
    else .error .frameNotFound
  else .error .frameNotFound

/-! ## Helper lemmas -/

theorem RevoluteJoint.get_mobilizer_of_bound {τ : ScalarTag} (j : RevoluteJoint τ)
    (m : RevoluteMobilizer) (hbound : j.implementation_ = some ⟨[m]⟩) :
    j.get_mobilizer = .ok m := by
  simp [RevoluteJoint.get_mobilizer, hbound]

theorem RevoluteJoint.get_mobilizer_of_unbound {τ : ScalarTag} (j : RevoluteJoint τ)
    (hunbound : j.implementation_ = none) :
    j.get_mobilizer = .error .unboundAccess := by
  simp [RevoluteJoint.get_mobilizer, hunbound]

theorem RevoluteJoint.construct_ok_inv (τ : ScalarTag) (name fp fc : String)
    (nv : ℕ) (axis : Vec3) (j : RevoluteJoint τ)
    (hok : RevoluteJoint.construct τ name fp fc nv axis = .ok j) :
    ¬ axis.isZero kEpsilon ∧ j = ⟨name, fp, fc, nv, axis.normalized, none⟩ := by
  by_cases hz : axis.isZero kEpsilon
  · simp [RevoluteJoint.construct, hz] at hok
  · simp only [RevoluteJoint.construct, if_neg hz, Except.ok.injEq] at hok
    exact ⟨hz, hok.symm⟩

theorem RevoluteJoint.AddInTorque_of_bound {τ : ScalarTag} (j : RevoluteJoint τ)
    (m : RevoluteMobilizer) (context : Context τ) (torque : Scalar τ)
    (forces : MultibodyForces τ) (hbound : j.implementation_ = some ⟨[m]⟩)
    (hsize : forces.generalized_forces.length = j.parent_tree_num_velocities) :
    j.AddInTorque context torque forces =
      .ok ⟨forces.generalized_forces.set m.velocity_start
        (Scalar.add τ (forces.generalized_forces.getD m.velocity_start (Scalar.zero τ))
          torque)⟩ := by
  simp [RevoluteJoint.AddInTorque, MultibodyForces.CheckHasRightSizeForModel, hsize,
    RevoluteJoint.AddInOneForce, RevoluteJoint.do_get_num_dofs,
    RevoluteJoint.DoAddInOneForce, j.get_mobilizer_of_bound m hbound, Except.map]

/-! ## Concrete fixtures used by the witness theorems -/

/-- A mobilizer bound at offsets (0, 0). -/
def mob0 : RevoluteMobilizer := ⟨"P", "C", ⟨0, 0, 1⟩, 0, 0⟩

/-- A mobilizer bound at position offset 0 and velocity offset 1. -/
def mob1 : RevoluteMobilizer := ⟨"P", "C", ⟨0, 0, 1⟩, 0, 1⟩

/-- A bound revolute joint over `double` in a 1-dof mechanism. -/
def jBound : RevoluteJoint .double := ⟨"hip", "P", "C", 1, ⟨0, 0, 1⟩, some ⟨[mob0]⟩⟩

/-- A bound revolute joint over `double` in a 2-dof mechanism, owning slot 1. -/
def jBound2 : RevoluteJoint .double := ⟨"hip", "P", "C", 2, ⟨0, 0, 1⟩, some ⟨[mob1]⟩⟩

/-- An unbound revolute joint over `double` (constructed, not finalized). -/
def jUnbound : RevoluteJoint .double := ⟨"free", "P", "C", 1, ⟨0, 0, 1⟩, none⟩

/-- A 1-dof state container over `double`. -/
def ctx0 : Context .double := ⟨[(0 : ℝ)], [(0 : ℝ)]⟩

/-! ## Claim theorems -/

/-- C1: for every bound revolute joint, every context and every angle value, a
`set_angle` with `theta` followed by a `get_angle` returns exactly `theta`: the
state slot round-trips without modification. -/
theorem C1_set_angle_get_angle_roundtrip (τ : ScalarTag) (j : RevoluteJoint τ)
    (m : RevoluteMobilizer) (context : Context τ) (theta : Scalar τ)
    (hbound : j.implementation_ = some ⟨[m]⟩)
    (hidx : m.position_start < context.q.length) :
    ∃ context₂ : Context τ,
      j.set_angle context theta = .ok context₂ ∧
      j.get_angle context₂ = .ok theta := by
  have hm := j.get_mobilizer_of_bound m hbound
  refine ⟨m.set_angle context theta, by simp [RevoluteJoint.set_angle, hm, Except.map], ?_⟩
  simp [RevoluteJoint.get_angle, hm, RevoluteMobilizer.get_angle,
    RevoluteMobilizer.set_angle, List.getD_eq_getElem?_getD,
    List.getElem?_set_self, hidx, Except.map]

/-- C1 witness: a concrete bound joint and context round-trips the angle 2. -/
theorem C1_witness :
    ∃ context₂ : Context .double,
      jBound.set_angle ctx0 (2 : ℝ) = .ok context₂ ∧
      jBound.get_angle context₂ = .ok (2 : ℝ) :=
  C1_set_angle_get_angle_roundtrip .double jBound mob0 ctx0 (2 : ℝ) rfl
    (by simp [mob0, ctx0])

/-- C3: on an all-zero accumulator sized for the mechanism, two `AddInTorque`
calls with `f1` and `f2` leave `Scalar.add f1 f2` in the joint's slot (the
entry point adds, never overwrites) and leave every other slot unchanged (still
zero). -/
theorem C3_add_in_torque_accumulates (τ : ScalarTag) (j : RevoluteJoint τ)
    (m : RevoluteMobilizer) (context : Context τ) (f1 f2 : Scalar τ)
    (hbound : j.implementation_ = some ⟨[m]⟩)
    (hidx : m.velocity_start < j.parent_tree_num_velocities) :
    ∃ acc1 acc2 : MultibodyForces τ,
      j.AddInTorque context f1
        ⟨List.replicate j.parent_tree_num_velocities (Scalar.zero τ)⟩ = .ok acc1 ∧
      j.AddInTorque context f2 acc1 = .ok acc2 ∧
      acc2.generalized_forces.getD m.velocity_start (Scalar.zero τ) =
        Scalar.add τ f1 f2 ∧
      ∀ k : ℕ, k ≠ m.velocity_start →
        acc2.generalized_forces.getD k (Scalar.zero τ) = Scalar.zero τ := by
  set n := j.parent_tree_num_velocities with hn
  have h1 := j.AddInTorque_of_bound m context f1
    ⟨List.replicate n (Scalar.zero τ)⟩ hbound (by simp [hn])
  have hz1 : (List.replicate n (Scalar.zero τ)).getD m.velocity_start (Scalar.zero τ) =
      Scalar.zero τ := by
    simp [List.getD_eq_getElem?_getD, List.getElem?_replicate, hidx]
  rw [hz1, Scalar.zero_add] at h1
  set l1 : List (Scalar τ) := (List.replicate n (Scalar.zero τ)).set m.velocity_start f1
    with hl1
  have h2 := j.AddInTorque_of_bound m context f2 ⟨l1⟩ hbound (by simp [hl1, hn])
  have hg1 : l1.getD m.velocity_start (Scalar.zero τ) = f1 := by
    simp [hl1, List.getD_eq_getElem?_getD, List.getElem?_set_self, hidx]
  rw [hg1] at h2
  refine ⟨⟨l1⟩, ⟨l1.set m.velocity_start (Scalar.add τ f1 f2)⟩, h1, h2, ?_, ?_⟩
  · simp [List.getD_eq_getElem?_getD, List.getElem?_set_self, hl1, hidx]
  · intro k hk
    rw [hl1, List.getD_eq_getElem?_getD, List.getElem?_set_ne (Ne.symm hk),
      List.getElem?_set_ne (Ne.symm hk), List.getElem?_replicate]
    split <;> rfl

/-- C3 witness: a concrete bound joint over a 2-dof mechanism accumulates 5 and
7 into 12 in its slot and leaves the other slot zero. -/
theorem C3_witness :
    ∃ acc1 acc2 : MultibodyForces .double,
      jBound2.AddInTorque ctx0 (5 : ℝ)
        ⟨List.replicate 2 (Scalar.zero .double)⟩ = .ok acc1 ∧
      jBound2.AddInTorque ctx0 (7 : ℝ) acc1 = .ok acc2 ∧
      acc2.generalized_forces.getD mob1.velocity_start (Scalar.zero .double) =
        Scalar.add .double (5 : ℝ) (7 : ℝ) ∧
      ∀ k : ℕ, k ≠ mob1.velocity_start →
        acc2.generalized_forces.getD k (Scalar.zero .double) = Scalar.zero .double :=
  C3_add_in_torque_accumulates .double jBound2 mob1 ctx0 (5 : ℝ) (7 : ℝ) rfl
    (by simp [mob1, jBound2])

/-- C10: `DoAddInOneForce` demands dof index 0: any other `joint_dof` aborts
(demand failure) before the accumulator is written, so a torque can only ever
land in the joint's single slot. -/
theorem C10_do_add_in_one_force_rejects_nonzero_dof (τ : ScalarTag)
    (j : RevoluteJoint τ) (context : Context τ) (joint_dof : ℕ)
    (joint_tau : Scalar τ) (forces : MultibodyForces τ)
    (hdof : joint_dof ≠ 0) :
    j.DoAddInOneForce context joint_dof joint_tau forces = .error .demandFailed := by
  simp [RevoluteJoint.DoAddInOneForce, hdof]

/-- C10 witness: dof 1 is rejected on a concrete bound joint. -/
theorem C10_witness :
    jBound.DoAddInOneForce ctx0 1 (3 : ℝ) ⟨[(0 : ℝ)]⟩ = .error .demandFailed :=
  C10_do_add_in_one_force_rejects_nonzero_dof .double jBound ctx0 1 (3 : ℝ)
    ⟨[(0 : ℝ)]⟩ (by simp)

/-- C8: on a bound joint, `AddInTorque` with an accumulator whose size does not
match the owning mechanism fails with a size-mismatch error before any slot is
written (the error result carries no updated accumulator). -/
theorem C8_add_in_torque_size_mismatch (τ : ScalarTag) (j : RevoluteJoint τ)
    (impl : JointImplementation) (context : Context τ) (torque : Scalar τ)
    (forces : MultibodyForces τ)
    (_hbound : j.implementation_ = some impl)
    (hsize : forces.generalized_forces.length ≠ j.parent_tree_num_velocities) :
    j.AddInTorque context torque forces = .error .sizeMismatch := by
  simp [RevoluteJoint.AddInTorque, MultibodyForces.CheckHasRightSizeForModel, hsize]

/-- C8 witness: an empty accumulator against a 1-dof mechanism is rejected. -/
theorem C8_witness :
    jBound.AddInTorque ctx0 (3 : ℝ) ⟨[]⟩ = .error .sizeMismatch :=
  C8_add_in_torque_size_mismatch .double jBound ⟨[mob0]⟩ ctx0 (3 : ℝ) ⟨[]⟩ rfl
    (by simp [jBound])

/-- C4 counterexample: the claim says every force-injection call on an Unbound
joint fails with the unbound-access error, but `AddInTorque` checks the
accumulator's size first (`revolute_joint.h` line 143 precedes line 144), so an
Unbound joint with a mis-sized accumulator fails with the size-mismatch error
instead. -/
theorem C4_counterexample :
    jUnbound.AddInTorque ctx0 (1 : ℝ) ⟨[]⟩ = .error .sizeMismatch ∧
    jUnbound.AddInTorque ctx0 (1 : ℝ) ⟨[]⟩ ≠ .error .unboundAccess := by
  have h : jUnbound.AddInTorque ctx0 (1 : ℝ) ⟨[]⟩ = .error .sizeMismatch := by
    simp [RevoluteJoint.AddInTorque, MultibodyForces.CheckHasRightSizeForModel, jUnbound]
  exact ⟨h, by simp [h]⟩

/-- C4 (amended): on an Unbound joint every accessor fails with the
unbound-access error, force injection with a correctly sized accumulator fails
with the unbound-access error, and force injection with a mis-sized accumulator
fails with the size-mismatch error; every failure is an error result, so no
context or accumulator is mutated (containers are returned only inside `ok`). -/
theorem C4_unbound_access_fails (τ : ScalarTag) (j : RevoluteJoint τ)
    (context : Context τ) (theta rate torque : Scalar τ)
    (forces badForces : MultibodyForces τ)
    (hunbound : j.implementation_ = none)
    (hsize : forces.generalized_forces.length = j.parent_tree_num_velocities)
    (hbad : badForces.generalized_forces.length ≠ j.parent_tree_num_velocities) :
    j.get_angle context = .error .unboundAccess ∧
    j.set_angle context theta = .error .unboundAccess ∧
    j.get_angular_rate context = .error .unboundAccess ∧
    j.set_angular_rate context rate = .error .unboundAccess ∧
    j.AddInTorque context torque forces = .error .unboundAccess ∧
    j.AddInTorque context torque badForces = .error .sizeMismatch := by
  have hm := j.get_mobilizer_of_unbound hunbound
  refine ⟨?_, ?_, ?_, ?_, ?_, ?_⟩
  · simp [RevoluteJoint.get_angle, hm, Except.map]
  · simp [RevoluteJoint.set_angle, hm, Except.map]
  · simp [RevoluteJoint.get_angular_rate, hm, Except.map]
  · simp [RevoluteJoint.set_angular_rate, hm, Except.map]
  · simp [RevoluteJoint.AddInTorque, MultibodyForces.CheckHasRightSizeForModel, hsize,
      RevoluteJoint.AddInOneForce, RevoluteJoint.do_get_num_dofs,
      RevoluteJoint.DoAddInOneForce, hm, Except.map]
  · simp [RevoluteJoint.AddInTorque, MultibodyForces.CheckHasRightSizeForModel, hbad]

/-- C4 witness: a concrete unbound joint rejects all accessor and force calls. -/
theorem C4_witness :
    jUnbound.get_angle ctx0 = .error .unboundAccess ∧
    jUnbound.set_angle ctx0 (1 : ℝ) = .error .unboundAccess ∧
    jUnbound.get_angular_rate ctx0 = .error .unboundAccess ∧
    jUnbound.set_angular_rate ctx0 (1 : ℝ) = .error .unboundAccess ∧
    jUnbound.AddInTorque ctx0 (1 : ℝ) ⟨[(0 : ℝ)]⟩ = .error .unboundAccess ∧
    jUnbound.AddInTorque ctx0 (1 : ℝ) ⟨[]⟩ = .error .sizeMismatch :=
  C4_unbound_access_fails .double jUnbound ctx0 (1 : ℝ) (1 : ℝ) (1 : ℝ)
    ⟨[(0 : ℝ)]⟩ ⟨[]⟩ rfl (by simp [jUnbound]) (by simp [jUnbound])

/-- C5: scalar-converting a revolute joint whose two frame names are present in
the cloned tree succeeds and produces a joint with the same name, the same dof
count and the identical stored axis, starting Unbound; if either frame name is
absent the conversion fails with the missing-frame error. -/
theorem C5_clone_to_scalar (τ τ₂ : ScalarTag) (j : RevoluteJoint τ)
    (tree_clone_frames : List String) :
    (j.frame_on_parent ∈ tree_clone_frames → j.frame_on_child ∈ tree_clone_frames →
      ∃ j₂ : RevoluteJoint τ₂,
        j.TemplatedDoCloneToScalar τ₂ tree_clone_frames = .ok j₂ ∧
        j₂.name = j.name ∧
        j₂.do_get_num_dofs = j.do_get_num_dofs ∧
        j₂.get_revolute_axis = j.get_revolute_axis ∧
        j₂.implementation_ = none) ∧
    ((j.frame_on_parent ∉ tree_clone_frames ∨ j.frame_on_child ∉ tree_clone_frames) →
      j.TemplatedDoCloneToScalar τ₂ tree_clone_frames = .error .frameNotFound) := by
  constructor
  · intro hp hc
    refine ⟨⟨j.name, j.frame_on_parent, j.frame_on_child,
      j.parent_tree_num_velocities, j.axis_, none⟩, ?_, rfl, rfl, rfl, rfl⟩
    simp [RevoluteJoint.TemplatedDoCloneToScalar, hp, hc]
  · intro hmiss
    rcases hmiss with hp | hc
    · simp [RevoluteJoint.TemplatedDoCloneToScalar, hp]
    · by_cases hp : j.frame_on_parent ∈ tree_clone_frames <;>
        simp [RevoluteJoint.TemplatedDoCloneToScalar, hp, hc]

/-- C5 witness: cloning a concrete bound double joint to AutoDiffXd over a tree
holding both frames preserves name, dof count and axis and starts Unbound. -/
theorem C5_witness :
    ∃ j₂ : RevoluteJoint .autodiffXd,
      jBound.TemplatedDoCloneToScalar .autodiffXd ["P", "C"] = .ok j₂ ∧
      j₂.name = jBound.name ∧
      j₂.do_get_num_dofs = jBound.do_get_num_dofs ∧
      j₂.get_revolute_axis = jBound.get_revolute_axis ∧
      j₂.implementation_ = none :=
  (C5_clone_to_scalar .double .autodiffXd jBound ["P", "C"]).1
    (by simp [jBound]) (by simp [jBound])

/-- C7: `MakeImplementationBlueprint` is a pure function of the joint's
construction data: on any constructed joint it returns the blueprint holding
exactly one mobilizer specification, built from the parent frame, the child
frame and the normalized constructor axis (in particular, repeated calls return
this same value). -/
theorem C7_blueprint (τ : ScalarTag) (name fp fc : String) (nv : ℕ) (axis : Vec3)
    (j : RevoluteJoint τ)
    (hok : RevoluteJoint.construct τ name fp fc nv axis = .ok j) :
    j.MakeImplementationBlueprint = ⟨[⟨fp, fc, axis.normalized, 0, 0⟩]⟩ ∧
    (j.MakeImplementationBlueprint).mobilizers_.length = 1 := by
  obtain ⟨-, hj⟩ := RevoluteJoint.construct_ok_inv τ name fp fc nv axis j hok
  subst hj
  exact ⟨rfl, rfl⟩

/-- C9: the stored revolute axis does not depend on the scalar type `T` the
joint is instantiated over: constructing over any two scalar tags from the same
data yields the identical axis value, living in the scalar-independent
`Vec3` of reals (the model of `Vector3<double>`), while state-dependent
quantities have type `Scalar τ`. -/
theorem C9_axis_scalar_independent (τ₁ τ₂ : ScalarTag) (name fp fc : String)
    (nv : ℕ) (axis : Vec3) :
    (RevoluteJoint.construct τ₁ name fp fc nv axis).map RevoluteJoint.get_revolute_axis =
    (RevoluteJoint.construct τ₂ name fp fc nv axis).map RevoluteJoint.get_revolute_axis := by
  by_cases hz : axis.isZero kEpsilon <;>
    simp [RevoluteJoint.construct, hz, RevoluteJoint.get_revolute_axis, Except.map]

/-! ## Geometry lemmas for the axis claims -/

theorem Vec3.normSq_pos_of_not_isZero (v : Vec3) (h : ¬ v.isZero kEpsilon) :
    0 < v.normSq := by
  rw [Vec3.isZero] at h
  push_neg at h
  have he : (0 : ℝ) < kEpsilon := by norm_num [kEpsilon]
  rw [Vec3.normSq]
  by_cases hx : |v.x| ≤ kEpsilon
  · by_cases hy : |v.y| ≤ kEpsilon
    · have hz := h hx hy
      nlinarith [sq_nonneg v.x, sq_nonneg v.y, sq_abs v.z, abs_nonneg v.z]
    · push_neg at hy
      nlinarith [sq_nonneg v.x, sq_nonneg v.z, sq_abs v.y, abs_nonneg v.y]
  · push_neg at hx
    nlinarith [sq_nonneg v.y, sq_nonneg v.z, sq_abs v.x, abs_nonneg v.x]

theorem Vec3.normSq_normalized (v : Vec3) (h : 0 < v.normSq) :
    v.normalized.normSq = 1 := by
  have hn : 0 < v.norm := Real.sqrt_pos.mpr h
  have hn2 : v.norm ^ 2 = v.normSq := Real.sq_sqrt h.le
  simp only [Vec3.normalized, Vec3.normSq]
  field_simp
  rw [hn2, Vec3.normSq]

theorem Vec3.normalized_eq_smul (v : Vec3) :
    v.normalized = Vec3.smul (1 / v.norm) v := by
  simp only [Vec3.normalized, Vec3.smul, Vec3.mk.injEq]
  refine ⟨?_, ?_, ?_⟩ <;> ring

theorem Vec3.isZero_of_norm_lt (v : Vec3) (h : v.norm < kEpsilon) :
    v.isZero kEpsilon := by
  have hx : |v.x| ≤ v.norm := by
    rw [Vec3.norm, ← Real.sqrt_sq_eq_abs]
    apply Real.sqrt_le_sqrt
    rw [Vec3.normSq]; nlinarith [sq_nonneg v.y, sq_nonneg v.z]
  have hy : |v.y| ≤ v.norm := by
    rw [Vec3.norm, ← Real.sqrt_sq_eq_abs]
    apply Real.sqrt_le_sqrt
    rw [Vec3.normSq]; nlinarith [sq_nonneg v.x, sq_nonneg v.z]
  have hz : |v.z| ≤ v.norm := by
    rw [Vec3.norm, ← Real.sqrt_sq_eq_abs]
    apply Real.sqrt_le_sqrt
    rw [Vec3.normSq]; nlinarith [sq_nonneg v.x, sq_nonneg v.y]
  exact ⟨hx.trans h.le, hy.trans h.le, hz.trans h.le⟩

/-- C2 counterexample: the axis `(ε, ε, ε)` with `ε` machine epsilon has
magnitude `√3·ε ≥ ε`, hence it is not "below machine epsilon" and the claim
says its construction succeeds — yet the constructor's componentwise
`isZero(ε)` demand fires and construction fails. -/
theorem C2_counterexample :
    kEpsilon ≤ (Vec3.mk kEpsilon kEpsilon kEpsilon).norm ∧
    RevoluteJoint.construct .double "j" "P" "C" 1 ⟨kEpsilon, kEpsilon, kEpsilon⟩ =
      .error .degenerateConstruction := by
  have h0 : (0 : ℝ) < kEpsilon := by norm_num [kEpsilon]
  constructor
  · have h1 : Real.sqrt (kEpsilon ^ 2) ≤
        Real.sqrt ((Vec3.mk kEpsilon kEpsilon kEpsilon).normSq) := by
      apply Real.sqrt_le_sqrt
      rw [Vec3.normSq]
      nlinarith
    rw [Real.sqrt_sq h0.le] at h1
    exact h1
  · rw [RevoluteJoint.construct, if_pos]
    exact ⟨by rw [abs_of_pos h0], by rw [abs_of_pos h0], by rw [abs_of_pos h0]⟩

/-- C2 (amended): construction succeeds exactly when the axis is not
componentwise below machine epsilon (Eigen's `isZero(ε)` test on each
coefficient); every axis that is componentwise small — in particular the zero
vector, and more generally every axis of magnitude below machine epsilon —
fails eagerly in the constructor with the degenerate-construction error. -/
theorem C2_degenerate_axis_check (τ : ScalarTag) (name fp fc : String) (nv : ℕ)
    (axis : Vec3) :
    ((∃ j : RevoluteJoint τ, RevoluteJoint.construct τ name fp fc nv axis = .ok j) ↔
      ¬ axis.isZero kEpsilon) ∧
    (axis.isZero kEpsilon →
      RevoluteJoint.construct τ name fp fc nv axis = .error .degenerateConstruction) ∧
    (axis.norm < kEpsilon →
      RevoluteJoint.construct τ name fp fc nv axis = .error .degenerateConstruction) := by
  refine ⟨⟨?_, ?_⟩, ?_, ?_⟩
  · rintro ⟨j, hj⟩ hz
    simp [RevoluteJoint.construct, hz] at hj
  · intro hz
    exact ⟨_, by rw [RevoluteJoint.construct, if_neg hz]⟩
  · intro hz
    rw [RevoluteJoint.construct, if_pos hz]
  · intro hlt
    rw [RevoluteJoint.construct, if_pos (axis.isZero_of_norm_lt hlt)]

/-- C2 witness: the zero axis is rejected with the degenerate-construction
error, and the axis `(1, 0, 0)` is accepted. -/
theorem C2_witness :
    RevoluteJoint.construct .double "z" "P" "C" 1 ⟨0, 0, 0⟩ =
      .error .degenerateConstruction ∧
    ∃ j : RevoluteJoint .double,
      RevoluteJoint.construct .double "z" "P" "C" 1 ⟨1, 0, 0⟩ = .ok j := by
  constructor
  · exact (C2_degenerate_axis_check .double "z" "P" "C" 1 ⟨0, 0, 0⟩).2.1
      (by refine ⟨?_, ?_, ?_⟩ <;> simp <;> norm_num [kEpsilon])
  · exact (C2_degenerate_axis_check .double "z" "P" "C" 1 ⟨1, 0, 0⟩).1.mpr
      (by
        rintro ⟨h1, -, -⟩
        have h3 : |(1 : ℝ)| = 1 := abs_of_pos (by norm_num)
        rw [h3, kEpsilon] at h1
        norm_num at h1)

/-- C6: on any successfully constructed joint, `get_revolute_axis` returns a
unit vector (squared norm exactly 1 in the exact-real model) that is a positive
scalar multiple of the constructor's input axis, whatever the input's
magnitude, and binding an implementation (the only lifecycle transition) leaves
it unchanged. -/
theorem C6_revolute_axis_unit_parallel (τ : ScalarTag) (name fp fc : String)
    (nv : ℕ) (axis : Vec3) (j : RevoluteJoint τ)
    (hok : RevoluteJoint.construct τ name fp fc nv axis = .ok j) :
    j.get_revolute_axis.normSq = 1 ∧
    (∃ c : ℝ, 0 < c ∧ j.get_revolute_axis = Vec3.smul c axis) ∧
    ∀ impl : JointImplementation,
      (j.set_implementation impl).get_revolute_axis = j.get_revolute_axis := by
  obtain ⟨hz, hj⟩ := RevoluteJoint.construct_ok_inv τ name fp fc nv axis j hok
  subst hj
  have hpos := Vec3.normSq_pos_of_not_isZero axis hz
  have hn : 0 < axis.norm := Real.sqrt_pos.mpr hpos
  refine ⟨Vec3.normSq_normalized axis hpos, ⟨1 / axis.norm, by positivity, ?_⟩,
    fun impl => rfl⟩
  simpa [RevoluteJoint.get_revolute_axis] using axis.normalized_eq_smul

/-- C6 witness: the joint constructed on the axis `(3, 4, 0)` (length 5) stores
a unit axis that is a positive multiple of the input, unchanged by binding. -/
theorem C6_witness :
    (RevoluteJoint.get_revolute_axis
      (⟨"w", "P", "C", 2, Vec3.normalized ⟨3, 4, 0⟩, none⟩ : RevoluteJoint .double)).normSq
        = 1 ∧
    (∃ c : ℝ, 0 < c ∧
      RevoluteJoint.get_revolute_axis
        (⟨"w", "P", "C", 2, Vec3.normalized ⟨3, 4, 0⟩, none⟩ : RevoluteJoint .double) =
        Vec3.smul c ⟨3, 4, 0⟩) ∧
    RevoluteJoint.get_revolute_axis
      (RevoluteJoint.set_implementation
        (⟨"w", "P", "C", 2, Vec3.normalized ⟨3, 4, 0⟩, none⟩ : RevoluteJoint .double)
        ⟨[mob0]⟩) =
      RevoluteJoint.get_revolute_axis
        (⟨"w", "P", "C", 2, Vec3.normalized ⟨3, 4, 0⟩, none⟩ : RevoluteJoint .double) := by
  have h := C6_revolute_axis_unit_parallel .double "w" "P" "C" 2 ⟨3, 4, 0⟩
    ⟨"w", "P", "C", 2, Vec3.normalized ⟨3, 4, 0⟩, none⟩ (by
      rw [RevoluteJoint.construct, if_neg]
      rintro ⟨h1, -, -⟩
      have h3 : |(3 : ℝ)| = 3 := abs_of_pos (by norm_num)
      rw [h3, kEpsilon] at h1
      norm_num at h1)
  exact ⟨h.1, h.2.1, h.2.2 ⟨[mob0]⟩⟩

/-- C7 witness: the joint constructed on axis `(0, 0, 2)` yields the blueprint
holding exactly the one mobilizer spec built from its frames and normalized
axis. -/
theorem C7_witness :
    RevoluteJoint.MakeImplementationBlueprint
      (⟨"b", "P", "C", 1, Vec3.normalized ⟨0, 0, 2⟩, none⟩ : RevoluteJoint .double) =
      ⟨[⟨"P", "C", Vec3.normalized ⟨0, 0, 2⟩, 0, 0⟩]⟩ ∧
    (RevoluteJoint.MakeImplementationBlueprint
      (⟨"b", "P", "C", 1, Vec3.normalized ⟨0, 0, 2⟩, none⟩ : RevoluteJoint .double)).mobilizers_.length
      = 1 :=
  C7_blueprint .double "b" "P" "C" 1 ⟨0, 0, 2⟩
    ⟨"b", "P", "C", 1, Vec3.normalized ⟨0, 0, 2⟩, none⟩ (by
      rw [RevoluteJoint.construct, if_neg]
      rintro ⟨-, -, h1⟩
      have h3 : |(2 : ℝ)| = 2 := abs_of_pos (by norm_num)
      rw [h3, kEpsilon] at h1
      norm_num at h1)
